import Mathlib

/-
Shallow embedding of src/Fridge.py (Shouwiya/Fridge-prediction-thingy).

The program is a single SQLite table `fridge_items` with five operations.
We model:
  - the table as a `List Item` (rows in storage order; `id` autoincrement
    only fixes that order, so it is dropped);
  - `DATE` columns as `Int` day numbers, so that Python's
    `(today - last_date).days` is plain integer subtraction;
  - the `REAL` column `daily_usage` and Python float division by exact
    rational arithmetic (`Rat`); every value the claims touch is exactly
    representable, so no rounding behaviour is lost;
  - the `input(...)` calls as parameters (the spec treats the CLI shell as
    an external collaborator passing already-validated values), and
    `datetime.now().date()` as a `today : Int` parameter;
  - printing an error message as returning that error in an `Except`.
-/

deriving instance DecidableEq for Except

namespace Fridge

/-- Row of the `fridge_items` table (src/Fridge.py lines 16-25), minus the
autoincrement `id`, whose only observable effect is the storage order
already carried by the list. -/
structure Item where
  name : String
  quantity : Int
  threshold : Int
  last_updated : Int
  daily_usage : Rat
deriving DecidableEq, Repr

/-- The persisted table: rows in storage order. -/
abbrev Store := List Item

/-- The error kinds of spec section 7 that the store operations themselves
report as user-facing messages. -/
inductive FridgeError where
  | DuplicateItem
  | ItemNotFound
  | InsufficientData
  | StorageError
deriving DecidableEq, Repr

/-- Lookup `SELECT ... FROM fridge_items WHERE name=?` (case-sensitive
string equality, as in SQLite's default BINARY collation). -/
def findItem (store : Store) (name : String) : Option Item :=
  store.find? (fun it => it.name == name)

/-- Python's `int()` truncation toward zero, on exact rationals. -/
def pyInt (q : Rat) : Int :=
  if 0 ≤ q then q.floor else -((-q).floor)

/-- `add_item` (src/Fridge.py lines 28-52): INSERT a fresh row with
`daily_usage = 0.0` and `last_updated` = today; the UNIQUE constraint on
`name` makes the INSERT raise `IntegrityError` when the name exists, which
the function catches and reports (store untouched). Result: the table
after the call, and the outcome. -/
def add_item (store : Store) (name : String) (quantity threshold : Int)
    (today : Int) : Store × Except FridgeError Unit :=
  if (findItem store name).isSome then
    (store, Except.error FridgeError.DuplicateItem)
  else
    (store ++ [⟨name, quantity, threshold, today, 0⟩], Except.ok ())

/-- The row rewrite performed by the UPDATE statement of `update_item`
(src/Fridge.py lines 88-91): every row whose name matches gets the new
quantity, threshold, today's date and the computed daily usage. -/
def applyUpdate (name : String) (new_quantity new_threshold : Int)
    (today : Int) (du : Rat) (it : Item) : Item :=
  if it.name == name then
    { it with quantity := new_quantity, threshold := new_threshold,
              last_updated := today, daily_usage := du }
  else it

/-- `update_item` (src/Fridge.py lines 54-98): SELECT the row (error
`ItemNotFound` when absent); blank inputs keep the old values (modelled by
`Option Int`); `days_passed = today - last_updated`; when
`days_passed > 0` and the quantity changed, `daily_usage` is recomputed as
`(old_quantity - new_quantity) / days_passed`, otherwise carried forward;
then the UPDATE rewrites the row with `last_updated` = today. -/
def update_item (store : Store) (name : String)
    (new_qty new_thresh : Option Int) (today : Int) :
    Store × Except FridgeError Unit :=
  match findItem store name with
  | none => (store, Except.error FridgeError.ItemNotFound)
  | some old =>
    let new_quantity := new_qty.getD old.quantity
    let new_threshold := new_thresh.getD old.threshold
    let days_passed : Int := today - old.last_updated
    let daily_usage : Rat :=
      if days_passed > 0 ∧ new_quantity ≠ old.quantity then
        ((old.quantity - new_quantity : Int) : Rat) / ((days_passed : Int) : Rat)
      else old.daily_usage
    (store.map (applyUpdate name new_quantity new_threshold today daily_usage),
     Except.ok ())

/-- `delete_item` (src/Fridge.py lines 100-109): `DELETE ... WHERE name=?`
removes every matching row; `rowcount == 0` (no row matched, i.e. nothing
removed) reports `ItemNotFound`. -/
def delete_item (store : Store) (name : String) :
    Store × Except FridgeError Unit :=
  let remaining := store.filter (fun it => !(it.name == name))
  if remaining.length = store.length then
    (store, Except.error FridgeError.ItemNotFound)
  else
    (remaining, Except.ok ())

/-- `view_items` (src/Fridge.py lines 111-123): list every row in storage
order, tagged with the below-threshold flag `quantity < threshold`
(the printed `**LOW**` marker). -/
def view_items (store : Store) : List (Item × Bool) :=
  store.map (fun it => (it, decide (it.quantity < it.threshold)))

/-- Outcome of `predict_restock`: either the "already below its
threshold!" report, or a forecast of `days` days with the projected
restock date `today + days`. -/
inductive PredictResult where
  | belowThreshold
  | forecast (days : Int) (restock_date : Int)
deriving DecidableEq, Repr

/-- `predict_restock` (src/Fridge.py lines 125-144): SELECT the row
(`ItemNotFound` when absent); `daily_usage <= 0` reports
`InsufficientData`; `days_left = (quantity - threshold) / daily_usage`;
`days_left < 0` reports the below-threshold condition; otherwise the
forecast is `int(days_left)` days and `today + timedelta(days=int(days_left))`. -/
def predict_restock (store : Store) (name : String) (today : Int) :
    Except FridgeError PredictResult :=
  match findItem store name with
  | none => Except.error FridgeError.ItemNotFound
  | some it =>
    if it.daily_usage ≤ 0 then Except.error FridgeError.InsufficientData
    else
      let days_left : Rat :=
        ((it.quantity - it.threshold : Int) : Rat) / it.daily_usage
      if days_left < 0 then Except.ok PredictResult.belowThreshold
      else Except.ok (PredictResult.forecast (pyInt days_left)
        (today + pyInt days_left))

/-- Division instrumented with an explicit zero-divisor check: `none`
marks a `ZeroDivisionError`. -/
def checkedDiv (a b : Rat) : Option Rat :=
  if b = 0 then none else some (a / b)

/-- `update_item` with its one division routed through `checkedDiv`:
`none` would mean the code can raise `ZeroDivisionError`. -/
def update_item_checked (store : Store) (name : String)
    (new_qty new_thresh : Option Int) (today : Int) :
    Option (Store × Except FridgeError Unit) :=
  match findItem store name with
  | none => some (store, Except.error FridgeError.ItemNotFound)
  | some old =>
    let new_quantity := new_qty.getD old.quantity
    let new_threshold := new_thresh.getD old.threshold
    let days_passed : Int := today - old.last_updated
    let du? : Option Rat :=
      if days_passed > 0 ∧ new_quantity ≠ old.quantity then
        checkedDiv ((old.quantity - new_quantity : Int) : Rat)
          ((days_passed : Int) : Rat)
      else some old.daily_usage
    du?.map (fun du =>
      (store.map (applyUpdate name new_quantity new_threshold today du),
       Except.ok ()))

/-- `predict_restock` with its one division routed through `checkedDiv`:
`none` would mean the code can raise `ZeroDivisionError`. -/
def predict_restock_checked (store : Store) (name : String) (today : Int) :
    Option (Except FridgeError PredictResult) :=
  match findItem store name with
  | none => some (Except.error FridgeError.ItemNotFound)
  | some it =>
    if it.daily_usage ≤ 0 then some (Except.error FridgeError.InsufficientData)
    else
      (checkedDiv ((it.quantity - it.threshold : Int) : Rat)
          it.daily_usage).map (fun days_left =>
        if days_left < 0 then Except.ok PredictResult.belowThreshold
        else Except.ok (PredictResult.forecast (pyInt days_left)
          (today + pyInt days_left)))

/-
Exception-propagation model for spec section 7. Each operation is run
against a persistence layer that, when `dbFail` is true, raises
`sqlite3.Error` on every cursor operation (the generic `StorageError`).
The outer `Except Unit` is the Python call: `Except.error ()` means the
exception escaped the function uncaught (and would crash the process,
since `main` has no handler either); `Except.ok` means the function
returned normally, its outcome printed as a message.
In the source, only `add_item` wraps its database calls in
`try/except sqlite3.Error` (lines 41-52); `update_item` guards only the
final UPDATE (lines 87-98) but not the initial SELECT (line 58);
`delete_item`, `view_items` and `predict_restock` have no handler at all.
-/

/-- `add_item` run against a possibly-failing persistence layer: the
`except sqlite3.Error` handler (lines 51-52) catches the failure and
prints a message, leaving the store untouched. -/
def add_item_run (dbFail : Bool) (store : Store) (name : String)
    (quantity threshold : Int) (today : Int) :
    Except Unit (Store × Except FridgeError Unit) :=
  if dbFail then Except.ok (store, Except.error FridgeError.StorageError)
  else Except.ok (add_item store name quantity threshold today)

/-- `update_item` run against a possibly-failing persistence layer: the
SELECT on line 58 is outside any `try`, so the failure propagates. -/
def update_item_run (dbFail : Bool) (store : Store) (name : String)
    (new_qty new_thresh : Option Int) (today : Int) :
    Except Unit (Store × Except FridgeError Unit) :=
  if dbFail then Except.error ()
  else Except.ok (update_item store name new_qty new_thresh today)

/-- `delete_item` run against a possibly-failing persistence layer: no
`try/except` anywhere in the function, so the failure propagates. -/
def delete_item_run (dbFail : Bool) (store : Store) (name : String) :
    Except Unit (Store × Except FridgeError Unit) :=
  if dbFail then Except.error ()
  else Except.ok (delete_item store name)

/-- `view_items` run against a possibly-failing persistence layer: no
`try/except`, so the failure propagates. -/
def view_items_run (dbFail : Bool) (store : Store) :
    Except Unit (List (Item × Bool)) :=
  if dbFail then Except.error ()
  else Except.ok (view_items store)

/-- `predict_restock` run against a possibly-failing persistence layer: no
`try/except`, so the failure propagates. -/
def predict_restock_run (dbFail : Bool) (store : Store) (name : String)
    (today : Int) : Except Unit (Except FridgeError PredictResult) :=
  if dbFail then Except.error ()
  else Except.ok (predict_restock store name today)

/-- `applyUpdate` never changes the name column. -/
theorem applyUpdate_name (name : String) (nq nt today : Int) (du : Rat)
    (it : Item) : (applyUpdate name nq nt today du it).name = it.name := by
  unfold applyUpdate
  split <;> rfl

/-- Looking up `name` after the UPDATE rewrite finds the rewritten version
of the row the lookup found before. -/
theorem find?_map_applyUpdate (l : List Item) (name : String)
    (nq nt today : Int) (du : Rat) (old : Item)
    (h : l.find? (fun it => it.name == name) = some old) :
    (l.map (applyUpdate name nq nt today du)).find?
        (fun it => it.name == name) =
      some (applyUpdate name nq nt today du old) := by
  induction l with
  | nil => simp at h
  | cons a t ih =>
    cases ha : (a.name == name) with
    | true =>
      simp only [List.find?_cons, ha] at h
      cases h
      simp only [List.map_cons, List.find?_cons, applyUpdate_name, ha]
    | false =>
      simp only [List.find?_cons, ha] at h
      simp only [List.map_cons, List.find?_cons, applyUpdate_name, ha]
      exact ih h

/-- Behaviour of `update_item` on a present name: it succeeds, the
resulting table is the pointwise rewrite, the name still looks up to the
rewritten row, and the daily usage written follows the recompute rule. -/
theorem update_item_found (store : Store) (name : String)
    (new_qty new_thresh : Option Int) (today : Int) (old : Item)
    (h : findItem store name = some old) :
    ∃ du : Rat,
      update_item store name new_qty new_thresh today =
        (store.map (applyUpdate name (new_qty.getD old.quantity)
          (new_thresh.getD old.threshold) today du), Except.ok ()) ∧
      findItem (update_item store name new_qty new_thresh today).1 name =
        some (applyUpdate name (new_qty.getD old.quantity)
          (new_thresh.getD old.threshold) today du old) ∧
      (today - old.last_updated > 0 ∧ new_qty.getD old.quantity ≠ old.quantity →
        du = ((old.quantity - new_qty.getD old.quantity : Int) : Rat) /
          ((today - old.last_updated : Int) : Rat)) ∧
      (¬ (today - old.last_updated > 0 ∧
          new_qty.getD old.quantity ≠ old.quantity) →
        du = old.daily_usage) := by
  refine ⟨if today - old.last_updated > 0 ∧
      new_qty.getD old.quantity ≠ old.quantity then
        ((old.quantity - new_qty.getD old.quantity : Int) : Rat) /
          ((today - old.last_updated : Int) : Rat)
      else old.daily_usage, ?_, ?_, ?_, ?_⟩
  · unfold update_item
    rw [h]
  · unfold update_item
    rw [h]
    exact find?_map_applyUpdate store name _ _ today _ old h
  · intro hc
    rw [if_pos hc]
  · intro hc
    rw [if_neg hc]

/-- Batteries' computable `Rat.floor` agrees with Mathlib's `⌊ ⌋`. -/
theorem ratFloor_eq_intFloor (q : Rat) : q.floor = ⌊q⌋ := rfl

/-- On the row whose name matches, `applyUpdate` writes the four new
column values. -/
theorem applyUpdate_of_match (name : String) (nq nt today : Int) (du : Rat)
    (it : Item) (hm : (it.name == name) = true) :
    applyUpdate name nq nt today du it =
      { it with quantity := nq, threshold := nt, last_updated := today,
                daily_usage := du } := by
  unfold applyUpdate
  rw [hm]
  rfl

/-- A row found by name satisfies the name test. -/
theorem findItem_beq (store : Store) (name : String) (it : Item)
    (h : findItem store name = some it) : (it.name == name) = true := by
  unfold findItem at h
  induction store with
  | nil => simp at h
  | cons a t ih =>
    cases ha : (a.name == name) with
    | true =>
      simp only [List.find?_cons, ha] at h
      cases h
      exact ha
    | false =>
      simp only [List.find?_cons, ha] at h
      exact ih h

/-- C1: for every existing item, UpdateItem recomputes daily_usage as
(old_quantity - new_quantity) / days_passed exactly when
days_passed = today - last_updated is greater than 0 and the new quantity
differs from the old one; in every other case the stored daily_usage is
carried forward unchanged. (The quotient may be negative when the
quantity increased: see `update_item_example_restock`.) -/
theorem update_item_daily_usage_recompute (store : Store) (name : String)
    (new_qty new_thresh : Option Int) (today : Int) (old : Item)
    (h : findItem store name = some old) :
    ∃ s', update_item store name new_qty new_thresh today =
        (s', Except.ok ()) ∧
      ∃ it', findItem s' name = some it' ∧
        (today - old.last_updated > 0 ∧
            new_qty.getD old.quantity ≠ old.quantity →
          it'.daily_usage =
            ((old.quantity - new_qty.getD old.quantity : Int) : Rat) /
              ((today - old.last_updated : Int) : Rat)) ∧
        (¬ (today - old.last_updated > 0 ∧
            new_qty.getD old.quantity ≠ old.quantity) →
          it'.daily_usage = old.daily_usage) := by
  obtain ⟨du, heq, hfind, hpos, hneg⟩ :=
    update_item_found store name new_qty new_thresh today old h
  rw [heq] at hfind
  refine ⟨_, heq, _, hfind, ?_, ?_⟩
  · intro hc
    rw [applyUpdate_of_match _ _ _ _ _ _ (findItem_beq store name old h)]
    exact hpos hc
  · intro hc
    rw [applyUpdate_of_match _ _ _ _ _ _ (findItem_beq store name old h)]
    exact hneg hc

/-- Witness for C1: one day after recording quantity 10, updating to 7
succeeds and the recompute rule applies. -/
theorem update_item_daily_usage_recompute_witness :
    ∃ s', update_item [⟨"milk", 10, 2, 0, 0⟩] "milk" (some 7) none 1 =
        (s', Except.ok ()) ∧
      ∃ it', findItem s' "milk" = some it' ∧
        (1 - (⟨"milk", 10, 2, 0, 0⟩ : Item).last_updated > 0 ∧
            (some (7 : Int)).getD 10 ≠ (⟨"milk", 10, 2, 0, 0⟩ : Item).quantity →
          it'.daily_usage =
            (((⟨"milk", 10, 2, 0, 0⟩ : Item).quantity -
                (some (7 : Int)).getD 10 : Int) : Rat) /
              ((1 - (⟨"milk", 10, 2, 0, 0⟩ : Item).last_updated : Int) : Rat)) ∧
        (¬ (1 - (⟨"milk", 10, 2, 0, 0⟩ : Item).last_updated > 0 ∧
            (some (7 : Int)).getD 10 ≠ (⟨"milk", 10, 2, 0, 0⟩ : Item).quantity) →
          it'.daily_usage = (⟨"milk", 10, 2, 0, 0⟩ : Item).daily_usage) :=
  update_item_daily_usage_recompute [⟨"milk", 10, 2, 0, 0⟩] "milk"
    (some 7) none 1 ⟨"milk", 10, 2, 0, 0⟩ (by rfl)

/-- C7: for every existing item, a successful UpdateItem sets
last_updated to today, whether or not the quantity changed, and when the
clock has not gone backwards (the stored date is not in the future) the
new date is never earlier than the previous one. -/
theorem update_item_sets_last_updated (store : Store) (name : String)
    (new_qty new_thresh : Option Int) (today : Int) (old : Item)
    (h : findItem store name = some old) :
    ∃ s' it', update_item store name new_qty new_thresh today =
        (s', Except.ok ()) ∧
      findItem s' name = some it' ∧
      it'.last_updated = today ∧
      (old.last_updated ≤ today → old.last_updated ≤ it'.last_updated) := by
  obtain ⟨du, heq, hfind, _, _⟩ :=
    update_item_found store name new_qty new_thresh today old h
  rw [heq] at hfind
  rw [applyUpdate_of_match _ _ _ _ _ _ (findItem_beq store name old h)] at hfind
  exact ⟨_, _, heq, hfind, rfl, fun hle => hle⟩

/-- Witness for C7: updating only the threshold still moves last_updated
from day 3 to day 5. -/
theorem update_item_sets_last_updated_witness :
    ∃ s' it', update_item [⟨"jam", 4, 1, 3, 2⟩] "jam" none (some 2) 5 =
        (s', Except.ok ()) ∧
      findItem s' "jam" = some it' ∧
      it'.last_updated = 5 ∧
      ((⟨"jam", 4, 1, 3, 2⟩ : Item).last_updated ≤ 5 →
        (⟨"jam", 4, 1, 3, 2⟩ : Item).last_updated ≤ it'.last_updated) :=
  update_item_sets_last_updated [⟨"jam", 4, 1, 3, 2⟩] "jam" none (some 2) 5
    ⟨"jam", 4, 1, 3, 2⟩ (by rfl)

/-- C2: for every existing item with daily_usage strictly positive and
days_left = (quantity - threshold) / daily_usage nonnegative,
PredictRestock returns floor(days_left) days and a projected date equal
to today plus that many days. -/
theorem predict_restock_forecast (store : Store) (name : String)
    (today : Int) (it : Item) (h : findItem store name = some it)
    (hdu : 0 < it.daily_usage)
    (hnn : 0 ≤ ((it.quantity - it.threshold : Int) : Rat) / it.daily_usage) :
    predict_restock store name today = Except.ok (PredictResult.forecast
      ((((it.quantity - it.threshold : Int) : Rat) / it.daily_usage).floor)
      (today +
        (((it.quantity - it.threshold : Int) : Rat) / it.daily_usage).floor)) := by
  simp only [predict_restock, h]
  rw [if_neg (not_le.mpr hdu), if_neg (not_lt.mpr hnn)]
  simp only [pyInt, if_pos hnn]

/-- Witness for C2 (the spec's example): quantity 5, threshold 2,
daily_usage 1.0 forecasts 3 days, restock date today + 3. -/
theorem predict_restock_forecast_witness :
    predict_restock [⟨"milk", 5, 2, 0, 1⟩] "milk" 100 =
      Except.ok (PredictResult.forecast 3 103) := by
  have h := predict_restock_forecast [⟨"milk", 5, 2, 0, 1⟩] "milk" 100
    ⟨"milk", 5, 2, 0, 1⟩ (by rfl) (by norm_num) (by norm_num)
  rw [h]
  norm_num [ratFloor_eq_intFloor]

/-- Filtering the view by name is the view of the rows of that name. -/
theorem view_items_filter (s : Store) (name : String) :
    (view_items s).filter (fun p => p.1.name == name) =
      (s.filter (fun it => it.name == name)).map
        (fun it => (it, decide (it.quantity < it.threshold))) := by
  induction s with
  | nil => rfl
  | cons a t ih =>
    cases ha : (a.name == name) with
    | true =>
      simp only [view_items, List.map_cons, List.filter_cons, ha,
        if_true] at ih ⊢
      rw [ih]
    | false =>
      simp only [view_items, List.map_cons, List.filter_cons, ha,
        Bool.false_eq_true, if_false] at ih ⊢
      exact ih

/-- A successful `find?` splits the list around the first hit. -/
theorem find?_split (l : List Item) (p : Item → Bool) (a : Item)
    (h : l.find? p = some a) :
    ∃ pre post, l = pre ++ a :: post ∧
      (∀ x ∈ pre, p x = false) ∧ p a = true := by
  induction l with
  | nil => simp at h
  | cons b t ih =>
    cases hb : p b with
    | true =>
      simp only [List.find?_cons, hb] at h
      cases h
      exact ⟨[], t, rfl, by simp, hb⟩
    | false =>
      simp only [List.find?_cons, hb] at h
      obtain ⟨pre, post, hsplit, hpre, hpa⟩ := ih h
      refine ⟨b :: pre, post, by rw [hsplit]; rfl, ?_, hpa⟩
      intro x hx
      cases List.mem_cons.mp hx with
      | inl hxb => rw [hxb]; exact hb
      | inr hx' => exact hpre x hx'

/-- C6: after a successful AddItem (name not yet present), ListItems
shows the new item exactly once — the rows of that name in the view are
exactly one row carrying the supplied quantity and threshold,
daily_usage 0.0, last_updated today, with its below-threshold flag. -/
theorem add_item_then_view (store : Store) (name : String)
    (q t today : Int) (h : findItem store name = none) :
    (add_item store name q t today).2 = Except.ok () ∧
    (view_items (add_item store name q t today).1).filter
        (fun p => p.1.name == name) =
      [(⟨name, q, t, today, 0⟩, decide (q < t))] := by
  have hsome : (findItem store name).isSome = false := by rw [h]; rfl
  have hstore : (add_item store name q t today).1 =
      store ++ [⟨name, q, t, today, 0⟩] := by
    simp only [add_item, hsome, Bool.false_eq_true, if_false]
  constructor
  · simp only [add_item, hsome, Bool.false_eq_true, if_false]
  · rw [hstore, view_items_filter, List.filter_append]
    have hnil : store.filter (fun it => it.name == name) = [] := by
      rw [List.filter_eq_nil_iff]
      intro x hx
      have := List.find?_eq_none.mp h x hx
      simpa using this
    rw [hnil]
    simp

/-- Witness for C6: adding "milk" to a store holding only "butter" makes
the view show the new row exactly once. -/
theorem add_item_then_view_witness :
    (add_item [⟨"butter", 1, 1, 0, 0⟩] "milk" 5 2 9).2 = Except.ok () ∧
    (view_items (add_item [⟨"butter", 1, 1, 0, 0⟩] "milk" 5 2 9).1).filter
        (fun p => p.1.name == "milk") =
      [(⟨"milk", 5, 2, 9, 0⟩, decide ((5 : Int) < 2))] :=
  add_item_then_view [⟨"butter", 1, 1, 0, 0⟩] "milk" 5 2 9 (by rfl)

/-- C8: DeleteItem on a name with no matching row fails with
ItemNotFound and leaves the store unchanged; on a name with a matching
row (names being unique, as the table's UNIQUE column guarantees) it
removes exactly that row and keeps every other row in order. -/
theorem delete_item_spec :
    (∀ (store : Store) (name : String), findItem store name = none →
      delete_item store name =
        (store, Except.error FridgeError.ItemNotFound)) ∧
    (∀ (store : Store) (name : String) (it : Item),
      findItem store name = some it → (store.map Item.name).Nodup →
      ∃ pre post, store = pre ++ it :: post ∧
        (∀ x ∈ pre, (x.name == name) = false) ∧
        (∀ x ∈ post, (x.name == name) = false) ∧
        delete_item store name = (pre ++ post, Except.ok ())) := by
  constructor
  · intro store name h
    have hfil : store.filter (fun it => !(it.name == name)) = store := by
      rw [List.filter_eq_self]
      intro x hx
      have := List.find?_eq_none.mp h x hx
      simpa using this
    simp [delete_item, hfil]
  · intro store name it h hnd
    obtain ⟨pre, post, hsplit, hpre, hpa⟩ := find?_split store _ it h
    have hname : it.name = name := eq_of_beq hpa
    have hpost : ∀ x ∈ post, (x.name == name) = false := by
      intro x hx
      rw [hsplit, List.map_append, List.map_cons] at hnd
      have hnotin : it.name ∉ post.map Item.name :=
        (List.nodup_cons.mp (List.nodup_append.mp hnd).2.1).1
      cases hxe : (x.name == name) with
      | true =>
        exfalso
        apply hnotin
        rw [hname, ← eq_of_beq hxe]
        exact List.mem_map_of_mem Item.name hx
      | false => rfl
    refine ⟨pre, post, hsplit, hpre, hpost, ?_⟩
    have hfil : store.filter (fun x => !(x.name == name)) = pre ++ post := by
      rw [hsplit, List.filter_append, List.filter_cons]
      have hpre' : pre.filter (fun x => !(x.name == name)) = pre := by
        rw [List.filter_eq_self]
        intro x hx
        rw [hpre x hx]
        rfl
      have hpost' : post.filter (fun x => !(x.name == name)) = post := by
        rw [List.filter_eq_self]
        intro x hx
        rw [hpost x hx]
        rfl
      rw [hpre', hpost', hpa]
      rfl
    have hlen : (pre ++ post).length ≠ store.length := by
      rw [hsplit]
      simp only [List.length_append, List.length_cons]
      omega
    simp only [delete_item, hfil, if_neg hlen]

/-- Witness for C8: deleting a missing name keeps the two-row store and
fails; deleting "a" from a two-row store removes exactly that row. -/
theorem delete_item_spec_witness :
    delete_item [⟨"a", 1, 2, 0, 0⟩, ⟨"b", 3, 1, 0, 0⟩] "c" =
      ([⟨"a", 1, 2, 0, 0⟩, ⟨"b", 3, 1, 0, 0⟩],
        Except.error FridgeError.ItemNotFound) ∧
    ∃ pre post,
      ([⟨"a", 1, 2, 0, 0⟩, ⟨"b", 3, 1, 0, 0⟩] : Store) =
        pre ++ (⟨"a", 1, 2, 0, 0⟩ : Item) :: post ∧
      (∀ x ∈ pre, (x.name == "a") = false) ∧
      (∀ x ∈ post, (x.name == "a") = false) ∧
      delete_item [⟨"a", 1, 2, 0, 0⟩, ⟨"b", 3, 1, 0, 0⟩] "a" =
        (pre ++ post, Except.ok ()) :=
  ⟨delete_item_spec.1 [⟨"a", 1, 2, 0, 0⟩, ⟨"b", 3, 1, 0, 0⟩] "c" (by rfl),
   delete_item_spec.2 [⟨"a", 1, 2, 0, 0⟩, ⟨"b", 3, 1, 0, 0⟩] "a"
      ⟨"a", 1, 2, 0, 0⟩ (by rfl) (by simp)⟩

/-- C3 counterexample: an existing item already below its threshold
(quantity 1 < threshold 2) whose daily_usage is 0 is reported as
InsufficientData, not as "already below threshold" — the usage check
comes first in the code. -/
theorem predict_restock_below_threshold_cex :
    (⟨"egg", 1, 2, 0, 0⟩ : Item).quantity < (⟨"egg", 1, 2, 0, 0⟩ : Item).threshold ∧
    findItem [⟨"egg", 1, 2, 0, 0⟩] "egg" = some ⟨"egg", 1, 2, 0, 0⟩ ∧
    predict_restock [⟨"egg", 1, 2, 0, 0⟩] "egg" 0 =
      Except.error FridgeError.InsufficientData ∧
    predict_restock [⟨"egg", 1, 2, 0, 0⟩] "egg" 0 ≠
      Except.ok PredictResult.belowThreshold := by
  refine ⟨by norm_num, by rfl, ?_, ?_⟩
  · norm_num [predict_restock, findItem]
  · norm_num [predict_restock, findItem]
    simp

/-- C3 amended: for every existing item with daily_usage strictly
positive whose quantity is already below its threshold, PredictRestock
reports the "already below threshold" condition instead of a forecast
(when daily_usage ≤ 0 it reports InsufficientData even for such an item),
and PredictRestock never returns a negative day count. -/
theorem predict_restock_below_threshold :
    (∀ (store : Store) (name : String) (today : Int) (it : Item),
      findItem store name = some it → 0 < it.daily_usage →
      it.quantity < it.threshold →
      predict_restock store name today =
        Except.ok PredictResult.belowThreshold) ∧
    (∀ (store : Store) (name : String) (today : Int) (d rd : Int),
      predict_restock store name today =
        Except.ok (PredictResult.forecast d rd) → 0 ≤ d) := by
  constructor
  · intro store name today it h hdu hlt
    have hneg : ((it.quantity - it.threshold : Int) : Rat) / it.daily_usage < 0 := by
      apply div_neg_of_neg_of_pos _ hdu
      exact_mod_cast sub_neg.mpr hlt
    simp only [predict_restock, h]
    rw [if_neg (not_le.mpr hdu), if_pos hneg]
  · intro store name today d rd h
    cases hf : findItem store name with
    | none => simp [predict_restock, hf] at h
    | some it =>
      simp only [predict_restock, hf] at h
      by_cases hle : it.daily_usage ≤ 0
      · rw [if_pos hle] at h
        exact absurd h (by simp)
      · rw [if_neg hle] at h
        by_cases hlt : ((it.quantity - it.threshold : Int) : Rat) /
            it.daily_usage < 0
        · rw [if_pos hlt] at h
          exact absurd h (by simp)
        · rw [if_neg hlt] at h
          have hd : d = pyInt (((it.quantity - it.threshold : Int) : Rat) /
              it.daily_usage) := by
            cases h
            rfl
          have hnn : (0 : Rat) ≤ ((it.quantity - it.threshold : Int) : Rat) /
              it.daily_usage := not_lt.mp hlt
          rw [hd]
          simp only [pyInt, if_pos hnn, ratFloor_eq_intFloor]
          exact Int.floor_nonneg.mpr hnn

/-- Witness for C3: a below-threshold item with positive usage is
reported as below threshold; a concrete forecast day count is
nonnegative. -/
theorem predict_restock_below_threshold_witness :
    predict_restock [⟨"egg", 1, 2, 0, 1⟩] "egg" 0 =
      Except.ok PredictResult.belowThreshold ∧ (0 : Int) ≤ 3 :=
  ⟨predict_restock_below_threshold.1 [⟨"egg", 1, 2, 0, 1⟩] "egg" 0
      ⟨"egg", 1, 2, 0, 1⟩ (by rfl) (by norm_num) (by norm_num),
   predict_restock_below_threshold.2 [⟨"oats", 5, 2, 0, 1⟩] "oats" 7 3 10
      (by norm_num [predict_restock, findItem, pyInt, ratFloor_eq_intFloor])⟩

/-- C4: for every existing item, PredictRestock fails with
InsufficientData exactly when the stored daily_usage is at most 0, and
fails with ItemNotFound when the name is absent. -/
theorem predict_restock_errors :
    (∀ (store : Store) (name : String) (today : Int),
      findItem store name = none →
      predict_restock store name today =
        Except.error FridgeError.ItemNotFound) ∧
    (∀ (store : Store) (name : String) (today : Int) (it : Item),
      findItem store name = some it →
      (predict_restock store name today =
          Except.error FridgeError.InsufficientData ↔
        it.daily_usage ≤ 0)) := by
  constructor
  · intro store name today h
    simp only [predict_restock, h]
  · intro store name today it h
    simp only [predict_restock, h]
    by_cases hle : it.daily_usage ≤ 0
    · rw [if_pos hle]
      simp [hle]
    · rw [if_neg hle]
      constructor
      · intro hc
        split at hc <;> exact absurd hc (by simp)
      · intro hc
        exact absurd hc hle

/-- Witness for C4: a missing name gives ItemNotFound; an existing item
with daily_usage 0 gives InsufficientData. -/
theorem predict_restock_errors_witness :
    predict_restock [] "milk" 4 = Except.error FridgeError.ItemNotFound ∧
    (predict_restock [⟨"tea", 9, 2, 0, 0⟩] "tea" 4 =
        Except.error FridgeError.InsufficientData ↔
      (⟨"tea", 9, 2, 0, 0⟩ : Item).daily_usage ≤ 0) :=
  ⟨predict_restock_errors.1 [] "milk" 4 (by rfl),
   predict_restock_errors.2 [⟨"tea", 9, 2, 0, 0⟩] "tea" 4
      ⟨"tea", 9, 2, 0, 0⟩ (by rfl)⟩

/-- Spec section 8 example: UpdateItem one day later, quantity 10 to 7,
makes `daily_usage` 3.0. -/
theorem update_item_example_consume :
    update_item [⟨"milk", 10, 2, 0, 0⟩] "milk" (some 7) none 1 =
      ([⟨"milk", 7, 2, 1, 3⟩], Except.ok ()) := by
  norm_num [update_item, findItem, applyUpdate]

/-- Spec section 8 example: UpdateItem one day later, quantity 10 to 12
(restock), makes `daily_usage` negative, -2.0. -/
theorem update_item_example_restock :
    update_item [⟨"milk", 10, 2, 0, 0⟩] "milk" (some 12) none 1 =
      ([⟨"milk", 12, 2, 1, -2⟩], Except.ok ()) := by
  norm_num [update_item, findItem, applyUpdate]

/-- Spec section 8 example: UpdateItem on the same day with changed
quantity keeps the prior `daily_usage` (here 5). -/
theorem update_item_example_same_day :
    update_item [⟨"milk", 10, 2, 0, 5⟩] "milk" (some 7) none 0 =
      ([⟨"milk", 7, 2, 0, 5⟩], Except.ok ()) := by
  norm_num [update_item, findItem, applyUpdate]

/-- C5: for every store state and every name already present in it,
AddItem with that name fails with DuplicateItem and leaves the store
completely unchanged (atomicity on error). -/
theorem add_item_duplicate (store : Store) (name : String)
    (q t today : Int) (it : Item) (h : findItem store name = some it) :
    add_item store name q t today =
      (store, Except.error FridgeError.DuplicateItem) := by
  simp only [add_item, h, Option.isSome_some, if_true]

/-- Witness for C5: adding "a" a second time fails and keeps the store. -/
theorem add_item_duplicate_witness :
    add_item [⟨"a", 4, 2, 7, 0⟩] "a" 1 1 8 =
      ([⟨"a", 4, 2, 7, 0⟩], Except.error FridgeError.DuplicateItem) :=
  add_item_duplicate [⟨"a", 4, 2, 7, 0⟩] "a" 1 1 8 ⟨"a", 4, 2, 7, 0⟩ (by rfl)

/-- C9 counterexample: `delete_item` has no exception handler, so when the
persistence layer fails with a StorageError the error propagates out of
the operation uncaught instead of being reported as a message. -/
theorem storage_error_uncaught_cex :
    delete_item_run true [] "milk" = Except.error () := rfl

/-- C9 amended: AddItem catches every underlying storage failure and
reports it as a user-facing message with the store unchanged, and its
domain errors are likewise reported, never thrown; but DeleteItem,
UpdateItem, ListItems and PredictRestock let an underlying StorageError
propagate uncaught. -/
theorem storage_error_handling :
    (∀ (dbFail : Bool) (store : Store) (name : String) (q t today : Int),
      (add_item_run dbFail store name q t today).isOk = true) ∧
    (∀ (store : Store) (name : String) (q t today : Int),
      add_item_run true store name q t today =
        Except.ok (store, Except.error FridgeError.StorageError)) ∧
    (∀ (store : Store) (name : String),
      delete_item_run true store name = Except.error ()) ∧
    (∀ (store : Store) (name : String) (nq nt : Option Int) (today : Int),
      update_item_run true store name nq nt today = Except.error ()) ∧
    (∀ (store : Store), view_items_run true store = Except.error ()) ∧
    (∀ (store : Store) (name : String) (today : Int),
      predict_restock_run true store name today = Except.error ()) := by
  refine ⟨?_, ?_, ?_, ?_, ?_, ?_⟩ <;> intros
  case _ dbFail _ _ _ _ _ => cases dbFail <;> rfl
  all_goals rfl

/-- C10: neither division in the program can divide by zero: running
`update_item` and `predict_restock` with every division routed through an
explicit zero-divisor check never hits the `none` (ZeroDivisionError)
case, on every input. -/
theorem no_division_by_zero :
    (∀ (store : Store) (name : String) (nq nt : Option Int) (today : Int),
      update_item_checked store name nq nt today =
        some (update_item store name nq nt today)) ∧
    (∀ (store : Store) (name : String) (today : Int),
      predict_restock_checked store name today =
        some (predict_restock store name today)) := by
  constructor
  · intro store name nq nt today
    cases hf : findItem store name with
    | none => simp only [update_item_checked, update_item, hf]
    | some old =>
      simp only [update_item_checked, update_item, hf]
      split
      next hc =>
        have hb : ((today - old.last_updated : Int) : Rat) ≠ 0 := by
          have h0 : (0 : Int) < today - old.last_updated := hc.1
          exact_mod_cast h0.ne'
        simp only [checkedDiv, if_neg hb]
        rfl
      next hc =>
        rfl
  · intro store name today
    cases hf : findItem store name with
    | none => simp only [predict_restock_checked, predict_restock, hf]
    | some it =>
      simp only [predict_restock_checked, predict_restock, hf]
      split
      next => rfl
      next hc =>
        have hb : it.daily_usage ≠ 0 := (lt_of_not_le hc).ne'
        simp only [checkedDiv, if_neg hb]
        rfl

end Fridge
